import Mathlib

/-!
Verification of the blinkit_scrape repository's core pipeline logic:
URL deduplication, barcode scanning, batched OCR orchestration, the image
compositor, the deduplication registry, the upload payload builder, the
upload step, and report (de)serialization.

Python functions are embedded shallowly: pure string/list manipulation is
translated directly; network and library effects (image download, pyzbar
decoding, the OCR service, the upload POST) are modelled as oracle
parameters returning `Option`, where `none` models a raised exception /
failed call at that point of the source.
-/

namespace Blinkit

/-- Python `str.strip()`: drop leading and trailing whitespace. (Defined over
the character list so that concrete instances reduce in the kernel;
`String.trim` agrees on the whitespace handled here.) -/
def pyStrip (s : String) : String :=
  ⟨((s.data.dropWhile Char.isWhitespace).reverse.dropWhile Char.isWhitespace).reverse⟩

/-- Python `str.lower()` on one character (ASCII range, which covers every
name and URL this pipeline handles). -/
def pyLowerChar (c : Char) : Char :=
  if 'A' ≤ c ∧ c ≤ 'Z' then Char.ofNat (c.toNat + 32) else c

/-- Python `str.lower()`. -/
def pyLower (s : String) : String := ⟨s.data.map pyLowerChar⟩

/-- `normalize_name` (blinkit_batch_scraper.py, lines 167-171): strip and
lowercase; `None` in, or an empty result, yields `None`. -/
def normalize_name (value : Option String) : Option String :=
  match value with
  | none => none
  | some v =>
    let normalized := pyLower (pyStrip v)
    if normalized = "" then none else some normalized

/-- The URL-deduplication loop shared by `run_ocr_on_images` (lines 320-329)
and `run_barcode_on_images` (lines 399-406): skip falsy (empty) entries,
trim, skip when the trimmed form is empty or already seen, keep first-seen
order. `seen` accumulates the trimmed URLs already emitted. -/
def dedupeUrlsGo (seen : List String) : List String → List String
  | [] => []
  | url :: rest =>
    if url = "" then dedupeUrlsGo seen rest
    else
      let normalized := pyStrip url
      if normalized = "" ∨ normalized ∈ seen then dedupeUrlsGo seen rest
      else normalized :: dedupeUrlsGo (normalized :: seen) rest

/-- Deduplicated, trimmed, first-seen-order URL list. -/
def dedupeUrls (urls : List String) : List String :=
  dedupeUrlsGo [] urls

/-- One decoded symbol as reported by pyzbar: the symbology name (`result.type`)
and the payload bytes already decoded as UTF-8 with invalid bytes ignored
(the only way the source reads `result.data`); `none` models a null payload
(the source guards with `result.data or b""`). -/
structure BarcodeResult where
  type : String
  data : Option String
deriving DecidableEq

/-- Keys of `BARCODE_ALLOWED_TYPES` (blinkit_batch_scraper.py, lines 38-42);
the source only ever tests membership against the dict's keys. -/
def BARCODE_ALLOWED_TYPES : List String := ["EAN13", "EAN8", "CODABAR"]

/-- The result-scanning loop of `_decode_barcode_from_image` (lines 383-390):
return the first result whose symbology is allow-listed and whose decoded,
stripped payload is non-empty. -/
def firstAllowedBarcode : List BarcodeResult → Option String
  | [] => none
  | result :: rest =>
    if BARCODE_ALLOWED_TYPES.contains result.type then
      let value := pyStrip (result.data.getD "")
      if value = "" then firstAllowedBarcode rest else some value
    else firstAllowedBarcode rest

/-- `_decode_barcode_from_image` (lines 375-390). `decodeResults image` models
`decode_barcode(image.convert("L"))`; `none` models the decoder raising (the
failure is logged and treated as "no barcode"). -/
def decode_barcode_from_image {Img : Type} (decodeResults : Img → Option (List BarcodeResult))
    (image : Img) : Option String :=
  match decodeResults image with
  | none => none
  | some results => firstAllowedBarcode results

/-- The scanning loop of `run_barcode_on_images` (lines 399-420), with the
`seen` set made explicit. `download url` models
`combine_images.download_image(url, timeout)`; `none` models a download
failure, which the source logs and skips. -/
def run_barcode_go {Img : Type} (download : String → Option Img)
    (decodeResults : Img → Option (List BarcodeResult)) (seen : List String) :
    List String → Option String
  | [] => none
  | url :: rest =>
    if url = "" then run_barcode_go download decodeResults seen rest
    else
      let normalized := pyStrip url
      if normalized = "" ∨ normalized ∈ seen then
        run_barcode_go download decodeResults seen rest
      else
        match download normalized with
        | none => run_barcode_go download decodeResults (normalized :: seen) rest
        | some image =>
          match decode_barcode_from_image decodeResults image with
          | some value => some value
          | none => run_barcode_go download decodeResults (normalized :: seen) rest

/-- `run_barcode_on_images` (blinkit_batch_scraper.py, lines 393-420). -/
def run_barcode_on_images {Img : Type} (download : String → Option Img)
    (decodeResults : Img → Option (List BarcodeResult)) (image_urls : List String) :
    Option String :=
  run_barcode_go download decodeResults [] image_urls

/-- The barcode scan equals a first-match search over the deduplicated URL
list, with a failed download contributing no candidate. -/
theorem run_barcode_go_eq_findSome {Img : Type} (download : String → Option Img)
    (decodeResults : Img → Option (List BarcodeResult)) (urls : List String) :
    ∀ seen : List String,
      run_barcode_go download decodeResults seen urls =
        (dedupeUrlsGo seen urls).findSome?
          (fun url => (download url).bind (decode_barcode_from_image decodeResults)) := by
  induction urls with
  | nil => intro seen; rfl
  | cons url rest ih =>
    intro seen
    by_cases hempty : url = ""
    · simp [run_barcode_go, dedupeUrlsGo, hempty, ih]
    · by_cases hskip : pyStrip url = "" ∨ pyStrip url ∈ seen
      · simp [run_barcode_go, dedupeUrlsGo, hempty, hskip, ih]
      · simp only [run_barcode_go, dedupeUrlsGo, if_neg hempty, if_neg hskip]
        cases hdl : download (pyStrip url) with
        | none => simp [List.findSome?, hdl, ih]
        | some image =>
          cases hdec : decode_barcode_from_image decodeResults image with
          | none => simp [List.findSome?, hdl, hdec, ih]
          | some value => simp [List.findSome?, hdl, hdec]

/-- The two OCR service entry points used by the orchestrator.
`batchText batch` models downloading the four images of `batch`, stacking
them (`_build_combined_image`) and running `ocr.detect_text` on the result;
`none` models an exception anywhere in that attempt (download, compositing
or recognition). `singleText url` models `ocr.detect_text_from_url`; `none`
models a raised exception. A returned string is the raw recognized text,
before stripping. -/
structure OcrOracle where
  batchText : List String → Option String
  singleText : String → Option String

/-- `_run_single_image_ocr` (blinkit_batch_scraper.py, lines 298-308): strip
the recognized text, return `none` for an exception or an empty result. -/
def run_single_image_ocr (o : OcrOracle) (url : String) : Option String :=
  match o.singleText url with
  | none => none
  | some full_text =>
    let cleaned := pyStrip full_text
    if cleaned = "" then none else some cleaned

/-- One external OCR attempt issued by `run_ocr_on_images`: a combined
(composited) attempt over a full batch of four URLs, or a per-image attempt
on one URL. -/
inductive OcrEvent where
  | combinedAttempt (batch : List String)
  | singleAttempt (url : String)
deriving DecidableEq

/-- The `while idx < len(unique_urls)` loop of `run_ocr_on_images` (lines
333-371), over the already-deduplicated URL list. Returns the accepted
texts together with the trace of OCR attempts issued, in order. A full
batch of four gets one combined attempt; when it raises or strips to empty,
each of its four images gets a per-image attempt; a trailing batch of fewer
than four images gets per-image attempts only. -/
def run_ocr_batches (o : OcrOracle) : List String → List String × List OcrEvent
  | u0 :: u1 :: u2 :: u3 :: rest =>
    let batch := [u0, u1, u2, u3]
    let next := run_ocr_batches o rest
    let fallbackTexts := batch.filterMap (run_single_image_ocr o)
    match o.batchText batch with
    | some full_text =>
      let cleaned := pyStrip full_text
      if cleaned = "" then
        (fallbackTexts ++ next.1,
          OcrEvent.combinedAttempt batch :: (batch.map OcrEvent.singleAttempt ++ next.2))
      else
        (cleaned :: next.1, OcrEvent.combinedAttempt batch :: next.2)
    | none =>
      (fallbackTexts ++ next.1,
        OcrEvent.combinedAttempt batch :: (batch.map OcrEvent.singleAttempt ++ next.2))
  | urls =>
    (urls.filterMap (run_single_image_ocr o), urls.map OcrEvent.singleAttempt)

/-- `run_ocr_on_images` (blinkit_batch_scraper.py, lines 311-372):
deduplicate, then process in batches of `OCR_BATCH_SIZE = 4`. -/
def run_ocr_on_images (o : OcrOracle) (image_urls : List String) :
    List String × List OcrEvent :=
  run_ocr_batches o (dedupeUrls image_urls)

/-- Whether a combined attempt on `batch` fails or strips to empty text,
triggering the per-image fallback. -/
def batchAttemptFails (o : OcrOracle) (batch : List String) : Bool :=
  match o.batchText batch with
  | none => true
  | some full_text => pyStrip full_text = ""

/-- Spec-side reference (4.5 "Algorithm for OCR"): partition the
deduplicated URLs into consecutive batches of four; each full batch gets
one combined attempt, followed by per-image attempts on its four images
exactly when the combined attempt fails or returns empty text; the trailing
partial batch gets per-image attempts only, with no compositing. -/
def specOcrEvents (o : OcrOracle) : List String → List OcrEvent
  | u0 :: u1 :: u2 :: u3 :: rest =>
    let batch := [u0, u1, u2, u3]
    (OcrEvent.combinedAttempt batch ::
        (if batchAttemptFails o batch then batch.map OcrEvent.singleAttempt else [])) ++
      specOcrEvents o rest
  | urls => urls.map OcrEvent.singleAttempt

/-- Number of full batches whose combined attempt fails or is empty. -/
def failedBatchCount (o : OcrOracle) : List String → Nat
  | u0 :: u1 :: u2 :: u3 :: rest =>
    (if batchAttemptFails o [u0, u1, u2, u3] then 1 else 0) + failedBatchCount o rest
  | _ => 0

/-- Is this event a combined-OCR attempt? -/
def isCombinedAttempt : OcrEvent → Bool
  | OcrEvent.combinedAttempt _ => true
  | OcrEvent.singleAttempt _ => false

/-- Is this event a per-image OCR attempt? -/
def isSingleAttempt : OcrEvent → Bool
  | OcrEvent.combinedAttempt _ => false
  | OcrEvent.singleAttempt _ => true

/-- Induction on a list consumed in leading chunks of four. -/
theorem chunk4_induction {α : Type} {P : List α → Prop}
    (hsmall : ∀ l : List α, l.length < 4 → P l)
    (h4 : ∀ (a b c d : α) (rest : List α), P rest → P (a :: b :: c :: d :: rest)) :
    ∀ l : List α, P l := by
  have key : ∀ (n : Nat) (l : List α), l.length ≤ n → P l := by
    intro n
    induction n with
    | zero => intro l hl; exact hsmall l (by omega)
    | succ n ihn =>
      intro l hl
      rcases l with _ | ⟨a, _ | ⟨b, _ | ⟨c, _ | ⟨d, rest⟩⟩⟩⟩
      · exact hsmall [] (by simp)
      · exact hsmall [a] (by simp)
      · exact hsmall [a, b] (by simp)
      · exact hsmall [a, b, c] (by simp)
      · exact h4 a b c d rest (ihn rest (by simp at hl; omega))
  intro l
  exact key l.length l le_rfl

/-- The attempt trace of the batch loop matches the spec-side description. -/
theorem run_ocr_batches_events (o : OcrOracle) (urls : List String) :
    (run_ocr_batches o urls).2 = specOcrEvents o urls := by
  induction urls using chunk4_induction with
  | hsmall l hl =>
    rcases l with _ | ⟨a, _ | ⟨b, _ | ⟨c, _ | ⟨d, rest⟩⟩⟩⟩
    · rfl
    · rfl
    · rfl
    · rfl
    · simp only [List.length_cons] at hl; omega
  | h4 u0 u1 u2 u3 rest ih =>
    simp only [run_ocr_batches, specOcrEvents]
    cases hb : o.batchText [u0, u1, u2, u3] with
    | none => simp [batchAttemptFails, hb, ih]
    | some full_text =>
      by_cases hc : pyStrip full_text = ""
      · simp [batchAttemptFails, hb, hc, ih]
      · simp [batchAttemptFails, hb, hc, ih]

/-- Per-image attempts on a mapped URL list count as its length. -/
theorem countP_single_map (urls : List String) :
    ((urls.map OcrEvent.singleAttempt).countP isSingleAttempt) = urls.length := by
  induction urls with
  | nil => rfl
  | cons u rest ih => simp [List.countP_cons, isSingleAttempt, ih]

/-- A mapped per-image URL list contains no combined attempt. -/
theorem countP_combined_map (urls : List String) :
    ((urls.map OcrEvent.singleAttempt).countP isCombinedAttempt) = 0 := by
  induction urls with
  | nil => rfl
  | cons u rest ih => simp [List.countP_cons, isCombinedAttempt, ih]

/-- The spec-side trace has one combined attempt per full batch of four. -/
theorem specOcrEvents_combined_count (o : OcrOracle) (urls : List String) :
    ((specOcrEvents o urls).countP isCombinedAttempt) = urls.length / 4 := by
  induction urls using chunk4_induction with
  | hsmall l hl =>
    rcases l with _ | ⟨a, _ | ⟨b, _ | ⟨c, _ | ⟨d, rest⟩⟩⟩⟩
    · rfl
    · have h1 : specOcrEvents o [a] = [OcrEvent.singleAttempt a] := rfl
      simp [h1, List.countP_cons, isCombinedAttempt]
    · have h1 : specOcrEvents o [a, b] = [OcrEvent.singleAttempt a, OcrEvent.singleAttempt b] := rfl
      simp [h1, List.countP_cons, isCombinedAttempt]
    · have h1 : specOcrEvents o [a, b, c] =
          [OcrEvent.singleAttempt a, OcrEvent.singleAttempt b, OcrEvent.singleAttempt c] := rfl
      simp [h1, List.countP_cons, isCombinedAttempt]
    · simp only [List.length_cons] at hl; omega
  | h4 u0 u1 u2 u3 rest ih =>
    simp only [specOcrEvents]
    by_cases hf : batchAttemptFails o [u0, u1, u2, u3]
    · simp [hf, List.countP_cons, List.countP_append, isCombinedAttempt, ih]
      omega
    · simp [hf, List.countP_cons, List.countP_append, isCombinedAttempt, ih]
      omega

/-- The spec-side trace has four per-image attempts per failed full batch
plus one per trailing-batch image. -/
theorem specOcrEvents_single_count (o : OcrOracle) (urls : List String) :
    ((specOcrEvents o urls).countP isSingleAttempt) =
      4 * failedBatchCount o urls + urls.length % 4 := by
  induction urls using chunk4_induction with
  | hsmall l hl =>
    rcases l with _ | ⟨a, _ | ⟨b, _ | ⟨c, _ | ⟨d, rest⟩⟩⟩⟩
    · rfl
    · have h1 : specOcrEvents o [a] = [OcrEvent.singleAttempt a] := rfl
      have h2 : failedBatchCount o [a] = 0 := rfl
      simp [h1, h2, List.countP_cons, isSingleAttempt]
    · have h1 : specOcrEvents o [a, b] = [OcrEvent.singleAttempt a, OcrEvent.singleAttempt b] := rfl
      have h2 : failedBatchCount o [a, b] = 0 := rfl
      simp [h1, h2, List.countP_cons, isSingleAttempt]
    · have h1 : specOcrEvents o [a, b, c] =
          [OcrEvent.singleAttempt a, OcrEvent.singleAttempt b, OcrEvent.singleAttempt c] := rfl
      have h2 : failedBatchCount o [a, b, c] = 0 := rfl
      simp [h1, h2, List.countP_cons, isSingleAttempt]
    · simp only [List.length_cons] at hl; omega
  | h4 u0 u1 u2 u3 rest ih =>
    simp only [specOcrEvents, failedBatchCount]
    by_cases hf : batchAttemptFails o [u0, u1, u2, u3]
    · simp [hf, List.countP_cons, List.countP_append, isSingleAttempt, ih]
      omega
    · simp [hf, List.countP_cons, List.countP_append, isSingleAttempt, ih]
      omega

/-- The `detail` dict of a scraped product (`scrape_product_detail`,
blinkit_batch_scraper.py lines 124-158, plus the `ocr_text`/`barcode` keys
added by enrichment). `nutrition` is the list of `(label, value)` pairs. -/
structure DetailResult where
  detail_name : Option String
  hero_images : List String
  nutrition : List (String × String)
  ingredients : Option String
  description : Option String
  fssai_license : Option String
  ocr_text : Option String
  barcode : Option String
  error : Option String
deriving DecidableEq

/-- The `product_record` dict assembled by `run_pipeline` (lines 583-588). -/
structure ProductRecord where
  listing_name : Option String
  listing_image : Option String
  product_link : Option String
  detail : DetailResult
deriving DecidableEq

/-- `candidate_product_names` (lines 470-479): the normalized listing and
detail names, in that order, dropping absent/empty ones. -/
def candidate_product_names (product : ProductRecord) : List String :=
  (normalize_name product.listing_name).toList ++
    (normalize_name product.detail.detail_name).toList

/-- Adding one name to the Python set registry (membership-preserving,
order-irrelevant: the set is only ever queried for membership). -/
def registryAdd (registry : List String) (name : String) : List String :=
  if name ∈ registry then registry else name :: registry

/-- `record_uploaded_product_names` (lines 482-486). -/
def record_uploaded_product_names (product : ProductRecord)
    (registry : List String) : List String :=
  (candidate_product_names product).foldl registryAdd registry

/-- `product_exists_in_registry` (lines 489-495). -/
def product_exists_in_registry (product : ProductRecord)
    (registry : List String) : Bool :=
  let candidates := candidate_product_names product
  if candidates.isEmpty then false
  else candidates.any (fun name => name ∈ registry)

/-- Insertion into a Python dict (`nutrition[label] = value`): overwrite in
place when the key exists, else append, preserving insertion order. -/
def dictInsert (d : List (String × String)) (label value : String) :
    List (String × String) :=
  if d.any (fun kv => kv.1 = label) then
    d.map (fun kv => if kv.1 = label then (label, value) else kv)
  else d ++ [(label, value)]

/-- `nutrition_pairs_to_dict` (lines 257-267): `None` for no entries, drop
pairs with an empty label or value, `None` again when nothing survives. -/
def nutrition_pairs_to_dict (entries : List (String × String)) :
    Option (List (String × String)) :=
  if entries.isEmpty then none
  else
    let nutrition := entries.foldl
      (fun d kv => if kv.1 = "" ∨ kv.2 = "" then d else dictInsert d kv.1 kv.2) []
    if nutrition.isEmpty then none else some nutrition

/-- `normalize_ingredients` (lines 270-278): split on commas, newlines and
semicolons, strip each part, drop empties, `None` when nothing remains.
(Splitting on each separator char and dropping empty parts is equivalent to
the source's split on runs of separators.) -/
def normalize_ingredients (ingredients : Option String) : Option (List String) :=
  match ingredients with
  | none => none
  | some s =>
    if s = "" then none
    else
      let parts := ((s.split (fun c => c = ',' || c = '\n' || c = ';')).map
        pyStrip).filter (fun part => part ≠ "")
      if parts.isEmpty then none else some parts

/-- The JSON body POSTed to the upload endpoint (lines 449-467). `nutrition`
is the label-to-value dict as an insertion-ordered association list. -/
structure UploadPayload where
  listingName : Option String
  detailName : Option String
  listingImage : Option String
  productLink : Option String
  listingUrls : List String
  heroImages : List String
  nutrition : List (String × String)
  barcode : Option String
  ingredients : Option (List String)
  description : Option String
  fssaiId : Option String
  servingSize : Option String
  servingsPerPackage : Option String
  storageInfo : Option String
  expiryInfo : Option String
  additionalText : Option String
  use_llm : Bool
deriving DecidableEq

/-- `build_upload_payload` (blinkit_batch_scraper.py, lines 423-467). -/
def build_upload_payload (product : ProductRecord) : Option UploadPayload :=
  let detail_result := product.detail
  let nutrition := nutrition_pairs_to_dict detail_result.nutrition
  let ingredients_raw := detail_result.ingredients
  let ingredients_list := normalize_ingredients ingredients_raw
  let description := detail_result.description
  let fssai_license := detail_result.fssai_license
  let ocr_text := detail_result.ocr_text
  let barcode := detail_result.barcode
  let listing_urls := match product.product_link with
    | some link => if link = "" then [] else [link]
    | none => []
  let additional_parts : List String := []
  let additional_parts := match description with
    | some s => if s = "" then additional_parts else additional_parts ++ [s]
    | none => additional_parts
  let additional_parts := match ingredients_raw with
    | some s => if s = "" then additional_parts
                else additional_parts ++ ["Ingredients: " ++ s]
    | none => additional_parts
  let additional_parts := match fssai_license with
    | some s => if s = "" then additional_parts
                else additional_parts ++ ["FSSAI License: " ++ s]
    | none => additional_parts
  let additional_parts := match ocr_text with
    | some s => if s = "" then additional_parts
                else additional_parts ++ ["OCR Text:\n" ++ s]
    | none => additional_parts
  let additional_parts := match barcode with
    | some s => if s = "" then additional_parts
                else additional_parts ++ ["Barcode: " ++ s]
    | none => additional_parts
  let additional_text := if additional_parts.isEmpty then none
    else some (String.intercalate "\n" additional_parts)
  match nutrition with
  | none => none
  | some nutrition =>
    some { listingName := product.listing_name
           detailName := detail_result.detail_name
           listingImage := product.listing_image
           productLink := product.product_link
           listingUrls := listing_urls
           heroImages := detail_result.hero_images
           nutrition := nutrition
           barcode := barcode
           ingredients := ingredients_list
           description := description
           fssaiId := fssai_license
           servingSize := none
           servingsPerPackage := none
           storageInfo := none
           expiryInfo := none
           additionalText := additional_text
           use_llm := true }

/-- Outcome of one call to `upload_product_to_nutrisnap`: whether it reported
success, how many POST requests it issued, and the registry afterwards. -/
structure UploadOutcome where
  uploaded : Bool
  posts : Nat
  registry : List String
deriving DecidableEq

/-- `upload_product_to_nutrisnap` (blinkit_batch_scraper.py, lines 498-532).
`post payload` models `session.post(NUTRISNAP_UPLOAD_URL, json=payload,
timeout=200)`: `none` is a `requests.RequestException` raised by the call
itself, `some status` a completed response. `raise_for_status` raises
exactly for status codes in [400, 600), so names are recorded exactly when
a response with a status outside that range came back. -/
def upload_product_to_nutrisnap (post : UploadPayload → Option Nat)
    (product : ProductRecord) (registry : List String) (dry_run : Bool) :
    UploadOutcome :=
  if product_exists_in_registry product registry then
    { uploaded := false, posts := 0, registry := registry }
  else
    match build_upload_payload product with
    | none => { uploaded := false, posts := 0, registry := registry }
    | some payload =>
      if dry_run then { uploaded := false, posts := 0, registry := registry }
      else
        match post payload with
        | none => { uploaded := false, posts := 1, registry := registry }
        | some status =>
          if 400 ≤ status ∧ status < 600 then
            { uploaded := false, posts := 1, registry := registry }
          else
            { uploaded := true, posts := 1,
              registry := record_uploaded_product_names product registry }

/-- A detail dict with no scraped content at all. -/
def emptyDetail : DetailResult :=
  { detail_name := none, hero_images := [], nutrition := [], ingredients := none,
    description := none, fssai_license := none, ocr_text := none, barcode := none,
    error := none }

/-- A product with a name but no nutrition entries. -/
def sampleNoNutritionProduct : ProductRecord :=
  { listing_name := some "Amul Butter", listing_image := none, product_link := none,
    detail := emptyDetail }

/-- A product carrying one nutrition pair, named only through its detail name. -/
def sampleNutritionProduct : ProductRecord :=
  { listing_name := none, listing_image := none, product_link := none,
    detail :=
      { detail_name := some "Amul Butter", hero_images := [],
        nutrition := [("Energy", "717 kcal")], ingredients := none,
        description := none, fssai_license := none, ocr_text := none,
        barcode := none, error := none } }

/-- C1: for every product record, registry and dry-run flag, the upload
operation issues no POST and reports no upload whenever the registry already
contains one of the record's normalized names, or the built payload is
absent, or dry-run is set. -/
theorem C1_upload_skip_no_post (post : UploadPayload → Option Nat)
    (product : ProductRecord) (registry : List String) (dry_run : Bool)
    (h : product_exists_in_registry product registry = true ∨
      build_upload_payload product = none ∨ dry_run = true) :
    (upload_product_to_nutrisnap post product registry dry_run).posts = 0 ∧
      (upload_product_to_nutrisnap post product registry dry_run).uploaded = false := by
  unfold upload_product_to_nutrisnap
  rcases h with h | h | h
  · simp [h]
  · by_cases he : product_exists_in_registry product registry
    · simp [he]
    · simp [he, h]
  · by_cases he : product_exists_in_registry product registry
    · simp [he]
    · cases hp : build_upload_payload product with
      | none => simp [he, hp]
      | some payload => simp [he, hp, h]

/-- C1 witness, the spec's own example: a record with empty nutrition,
`dry_run = False` and an unseen name builds no payload and issues no POST. -/
theorem C1_upload_skip_no_post_witness :
    build_upload_payload sampleNoNutritionProduct = none ∧
      (upload_product_to_nutrisnap (fun _ => some 200) sampleNoNutritionProduct
          [] false).posts = 0 ∧
      (upload_product_to_nutrisnap (fun _ => some 200) sampleNoNutritionProduct
          [] false).uploaded = false :=
  ⟨rfl, C1_upload_skip_no_post (fun _ => some 200) sampleNoNutritionProduct [] false
    (Or.inr (Or.inl rfl))⟩

/-- C2: over a URL list whose deduplicated (trimmed, first-seen-order) form
has `N` elements, the orchestrator's attempt trace matches the spec-side
batching description — one combined attempt per full batch of four, followed
by per-image attempts on that batch's four images exactly when the combined
attempt raised or stripped to empty, and per-image attempts only (no
compositing) for the trailing partial batch — hence exactly `N / 4` combined
attempts and `4 * (failed full batches) + N % 4` per-image attempts. -/
theorem C2_ocr_batching_attempts (o : OcrOracle) (image_urls : List String) :
    (run_ocr_on_images o image_urls).2 = specOcrEvents o (dedupeUrls image_urls) ∧
      ((run_ocr_on_images o image_urls).2.countP isCombinedAttempt) =
        (dedupeUrls image_urls).length / 4 ∧
      ((run_ocr_on_images o image_urls).2.countP isSingleAttempt) =
        4 * failedBatchCount o (dedupeUrls image_urls) +
          (dedupeUrls image_urls).length % 4 := by
  refine ⟨run_ocr_batches_events o _, ?_, ?_⟩
  · rw [run_ocr_on_images, run_ocr_batches_events]
    exact specOcrEvents_combined_count o _
  · rw [run_ocr_on_images, run_ocr_batches_events]
    exact specOcrEvents_single_count o _

/-- C3: the barcode scan deduplicates the URLs in input order and returns
the first value decoded from them whose symbology is allow-listed (`none`
is "not found", returned when no URL yields such a value); a URL whose
download fails contributes no candidate and does not abort the scan of the
remaining URLs. -/
theorem C3_barcode_first_allowed (Img : Type) (download : String → Option Img)
    (decodeResults : Img → Option (List BarcodeResult)) (image_urls : List String) :
    run_barcode_on_images download decodeResults image_urls =
      (dedupeUrls image_urls).findSome?
        (fun url => (download url).bind (decode_barcode_from_image decodeResults)) :=
  run_barcode_go_eq_findSome download decodeResults image_urls []

/-- C9 (amended): the upload operation issues at most one POST per call; the
registry gains the record's normalized candidate names exactly when it
reports an upload, which happens exactly when the product is not already
registered, dry-run is off, a payload was built, and the POST completed
with a status outside [400, 600) (what `raise_for_status` tolerates —
normally a 2xx); on every other outcome the registry is unchanged. -/
theorem C9_registry_recorded_iff_accepted (post : UploadPayload → Option Nat)
    (product : ProductRecord) (registry : List String) (dry_run : Bool) :
    (upload_product_to_nutrisnap post product registry dry_run).posts ≤ 1 ∧
      (upload_product_to_nutrisnap post product registry dry_run).registry =
        (if (upload_product_to_nutrisnap post product registry dry_run).uploaded then
          record_uploaded_product_names product registry
        else registry) ∧
      ((upload_product_to_nutrisnap post product registry dry_run).uploaded = true ↔
        product_exists_in_registry product registry = false ∧ dry_run = false ∧
          ∃ payload, build_upload_payload product = some payload ∧
            ∃ status, post payload = some status ∧ ¬(400 ≤ status ∧ status < 600)) := by
  unfold upload_product_to_nutrisnap
  by_cases he : product_exists_in_registry product registry
  · simp [he]
  · cases hp : build_upload_payload product with
    | none => simp [he, hp]
    | some payload =>
      by_cases hd : dry_run
      · simp [he, hp, hd]
      · cases hpost : post payload with
        | none => simp [he, hp, hd, hpost]
        | some status =>
          by_cases hs : 400 ≤ status ∧ status < 600
          · simp [he, hp, hd, hpost, hs]
          · simp only [Bool.not_eq_true] at he hd
            simp [he, hp, hd, hpost, hs]
            omega

/-- C9 counterexample: a POST that completes with HTTP status 300 — not a
2xx success — still registers the product's names and reports success,
because `raise_for_status` raises only for statuses in [400, 600). -/
theorem C9_non_2xx_records_registry :
    (upload_product_to_nutrisnap (fun _ => some 300) sampleNutritionProduct
        [] false).registry = ["amul butter"] ∧
      (upload_product_to_nutrisnap (fun _ => some 300) sampleNutritionProduct
          [] false).uploaded = true := by
  exact ⟨by decide, by decide⟩

/-- C10: a product whose listing and detail names both normalize to nothing
yields no candidate names, so the registry-membership check returns false
for every registry. -/
theorem C10_unnamed_not_duplicate (product : ProductRecord) (registry : List String)
    (h1 : normalize_name product.listing_name = none)
    (h2 : normalize_name product.detail.detail_name = none) :
    candidate_product_names product = [] ∧
      product_exists_in_registry product registry = false := by
  have hc : candidate_product_names product = [] := by
    simp [candidate_product_names, h1, h2]
  exact ⟨hc, by simp [product_exists_in_registry, hc]⟩

/-- A product whose listing name is whitespace only and whose detail name is
absent. -/
def unnamedProduct : ProductRecord :=
  { listing_name := some "   ", listing_image := none, product_link := none,
    detail := emptyDetail }

/-- C10 witness: a whitespace-only listing name and an absent detail name
normalize to nothing, and the product is not flagged as a duplicate even by
a non-empty registry. -/
theorem C10_unnamed_not_duplicate_witness :
    normalize_name unnamedProduct.listing_name = none ∧
      normalize_name unnamedProduct.detail.detail_name = none ∧
      candidate_product_names unnamedProduct = [] ∧
      product_exists_in_registry unnamedProduct ["amul butter"] = false :=
  ⟨by decide, by decide,
    (C10_unnamed_not_duplicate unnamedProduct ["amul butter"] (by decide) (by decide)).1,
    (C10_unnamed_not_duplicate unnamedProduct ["amul butter"] (by decide) (by decide)).2⟩

/-- The externally observable operations of one iteration of the product
loop in `run_pipeline`: a barcode scan over the product's images, an OCR
run over them, and an invocation of the upload step. -/
inductive PipeEvent where
  | barcodeScan
  | ocrRun
  | uploadCall
deriving DecidableEq

/-- Result of one product-loop iteration: the (possibly enriched) record,
the registry afterwards, the number of POSTs issued, and the operations
invoked, in order. -/
structure PipelineStepResult where
  record : ProductRecord
  registry : List String
  posts : Nat
  events : List PipeEvent
deriving DecidableEq

/-- One iteration of the product loop of `run_pipeline`
(blinkit_batch_scraper.py, lines 583-608), for an already-assembled product
record: if the registry already contains the product, OCR, barcode scanning
and upload are all skipped; otherwise the barcode scan and then OCR run over
the listing image plus the hero images, their results are stored on the
record, and the upload step is invoked on the enriched record. (The loop in
blinkit_urls_uploader.py, lines 131-148, has the same shape.) -/
def pipeline_process_product {Img : Type} (download : String → Option Img)
    (decodeResults : Img → Option (List BarcodeResult)) (o : OcrOracle)
    (post : UploadPayload → Option Nat) (dry_run : Bool)
    (product_record : ProductRecord) (existing_names : List String) :
    PipelineStepResult :=
  if product_exists_in_registry product_record existing_names then
    { record := product_record, registry := existing_names, posts := 0, events := [] }
  else
    let image_urls :=
      (match product_record.listing_image with
        | some image => if image = "" then [] else [image]
        | none => []) ++ product_record.detail.hero_images
    let barcode_value := run_barcode_on_images download decodeResults image_urls
    let ocr_texts := (run_ocr_on_images o image_urls).1
    let detail0 := product_record.detail
    let detail1 :=
      if ocr_texts.isEmpty then detail0
      else { detail0 with ocr_text := some (String.intercalate "\n\n" ocr_texts) }
    let detail2 := match barcode_value with
      | some value => if value = "" then detail1 else { detail1 with barcode := some value }
      | none => detail1
    let enriched := { product_record with detail := detail2 }
    let outcome := upload_product_to_nutrisnap post enriched existing_names dry_run
    { record := enriched, registry := outcome.registry, posts := outcome.posts,
      events := [PipeEvent.barcodeScan, PipeEvent.ocrRun, PipeEvent.uploadCall] }

/-- C6 (amended): the product loop consults the deduplication registry
before enrichment: a product already in the registry undergoes neither
barcode scanning, nor OCR, nor an upload attempt (and nothing changes);
only for products not in the registry does enrichment run, with the upload
step invoked after both enrichment operations. -/
theorem C6_registry_checked_before_enrichment {Img : Type}
    (download : String → Option Img) (decodeResults : Img → Option (List BarcodeResult))
    (o : OcrOracle) (post : UploadPayload → Option Nat) (dry_run : Bool)
    (product_record : ProductRecord) (existing_names : List String) :
    (pipeline_process_product download decodeResults o post dry_run product_record
        existing_names).events =
      (if product_exists_in_registry product_record existing_names then []
       else [PipeEvent.barcodeScan, PipeEvent.ocrRun, PipeEvent.uploadCall]) ∧
      (pipeline_process_product download decodeResults o post dry_run product_record
          existing_names).posts =
        (if product_exists_in_registry product_record existing_names then 0
         else (upload_product_to_nutrisnap post
            (pipeline_process_product download decodeResults o post dry_run
              product_record existing_names).record existing_names dry_run).posts) := by
  by_cases h : product_exists_in_registry product_record existing_names
  · simp [pipeline_process_product, h]
  · simp [pipeline_process_product, h]

/-- A product already present in the registry. -/
def registeredMilkProduct : ProductRecord :=
  { listing_name := some "Milk", listing_image := none, product_link := none,
    detail := { emptyDetail with hero_images := ["http://img.example/a.png"] } }

/-- C6 counterexample: a product whose name is already registered undergoes
no enrichment at all — neither barcode scanning nor OCR is invoked on its
images — contradicting the claim that enrichment is performed on every
product regardless of registry membership. -/
theorem C6_registered_product_skips_enrichment :
    (@pipeline_process_product Unit (fun _ => none) (fun _ => none)
        ⟨fun _ => none, fun _ => none⟩ (fun _ => some 200) false
        registeredMilkProduct ["milk"]).events = [] := by
  decide

/-- One serialized nutrition entry, the `{"label": ..., "value": ...}` dict
written by `serialize_nutrition_entries`. -/
structure SerializedNutritionEntry where
  label : String
  value : String
deriving DecidableEq

/-- The `detail` object of one product in the JSON report
(`serialize_product_for_json`, blinkit_batch_scraper.py lines 224-234). -/
structure SerializedDetail where
  detail_name : Option String
  hero_images : List String
  nutrition : List SerializedNutritionEntry
  ingredients : Option String
  description : Option String
  fssai_license : Option String
  ocr_text : Option String
  barcode : Option String
  error : Option String
deriving DecidableEq

/-- One product object in the JSON report. -/
structure SerializedProduct where
  listing_name : Option String
  listing_image : Option String
  product_link : Option String
  detail : SerializedDetail
deriving DecidableEq

/-- `serialize_nutrition_entries` (lines 205-215): keep pairs whose label
and value are both non-empty, as label/value dicts. -/
def serialize_nutrition_entries (entries : List (String × String)) :
    List SerializedNutritionEntry :=
  entries.filterMap (fun lv =>
    if lv.1 = "" ∨ lv.2 = "" then none else some ⟨lv.1, lv.2⟩)

/-- `serialize_product_for_json` (blinkit_batch_scraper.py, lines 218-235). -/
def serialize_product_for_json (product : ProductRecord) : SerializedProduct :=
  { listing_name := product.listing_name
    listing_image := product.listing_image
    product_link := product.product_link
    detail :=
      { detail_name := product.detail.detail_name
        hero_images := product.detail.hero_images
        nutrition := serialize_nutrition_entries product.detail.nutrition
        ingredients := product.detail.ingredients
        description := product.detail.description
        fssai_license := product.detail.fssai_license
        ocr_text := product.detail.ocr_text
        barcode := product.detail.barcode
        error := product.detail.error } }

/-- `_normalize_str` (blinkit_saved_report_uploader.py, lines 123-127):
strip; a missing value or an empty result becomes `None`. (For report
round-trips the raw value is always already a string, so `str(value)` is
the identity.) -/
def normalize_str (value : Option String) : Option String :=
  match value with
  | none => none
  | some v =>
    let text := pyStrip v
    if text = "" then none else some text

/-- `_normalize_nutrition` (blinkit_saved_report_uploader.py, lines
130-151) on serialized reports, where every entry is a label/value dict
(the tuple branch is unreachable for files this repo writes): normalize
both strings and keep the pair when both survive. -/
def normalize_nutrition (entries : List SerializedNutritionEntry) :
    List (String × String) :=
  entries.filterMap (fun item =>
    match normalize_str (some item.label), normalize_str (some item.value) with
    | some label, some value => some (label, value)
    | _, _ => none)

/-- `deserialize_product` (blinkit_saved_report_uploader.py, lines 154-175). -/
def deserialize_product (raw : SerializedProduct) : ProductRecord :=
  { listing_name := normalize_str raw.listing_name
    listing_image := normalize_str raw.listing_image
    product_link := normalize_str raw.product_link
    detail :=
      { detail_name := normalize_str raw.detail.detail_name
        hero_images := raw.detail.hero_images.filter
          (fun url => (normalize_str (some url)).isSome)
        nutrition := normalize_nutrition raw.detail.nutrition
        ingredients := normalize_str raw.detail.ingredients
        description := normalize_str raw.detail.description
        fssai_license := normalize_str raw.detail.fssai_license
        ocr_text := normalize_str raw.detail.ocr_text
        barcode := normalize_str raw.detail.barcode
        error := normalize_str raw.detail.error } }

/-- An optional string in the normal form the scrapers produce: absent, or
already stripped and non-empty. -/
def normalizedOptStr : Option String → Bool
  | none => true
  | some s => pyStrip s == s && !(s == "")

/-- A record whose string fields are absent or stripped-non-empty, whose
hero image URLs do not strip to empty, and whose nutrition pairs have
stripped non-empty labels and values (the spec's DetailResult invariant). -/
def wellFormedRecord (product : ProductRecord) : Bool :=
  normalizedOptStr product.listing_name &&
    normalizedOptStr product.listing_image &&
    normalizedOptStr product.product_link &&
    normalizedOptStr product.detail.detail_name &&
    product.detail.hero_images.all (fun url => !(pyStrip url == "")) &&
    product.detail.nutrition.all
      (fun lv => normalizedOptStr (some lv.1) && normalizedOptStr (some lv.2)) &&
    normalizedOptStr product.detail.ingredients &&
    normalizedOptStr product.detail.description &&
    normalizedOptStr product.detail.fssai_license &&
    normalizedOptStr product.detail.ocr_text &&
    normalizedOptStr product.detail.barcode &&
    normalizedOptStr product.detail.error

/-- `_normalize_str` is the identity on normal-form optional strings. -/
theorem normalize_str_id (o : Option String) (h : normalizedOptStr o = true) :
    normalize_str o = o := by
  cases o with
  | none => rfl
  | some s =>
    simp only [normalizedOptStr, Bool.and_eq_true, beq_iff_eq, Bool.not_eq_true',
      beq_eq_false_iff_ne, ne_eq] at h
    simp [normalize_str, h.1, h.2]

/-- Serializing then re-normalizing nutrition pairs is the identity on pairs
with stripped non-empty labels and values. -/
theorem nutrition_round_trip (entries : List (String × String))
    (h : entries.all
      (fun lv => normalizedOptStr (some lv.1) && normalizedOptStr (some lv.2)) = true) :
    normalize_nutrition (serialize_nutrition_entries entries) = entries := by
  induction entries with
  | nil => rfl
  | cons lv rest ih =>
    simp only [List.all_cons, Bool.and_eq_true] at h
    obtain ⟨⟨h1, h2⟩, hrest⟩ := h
    simp only [normalizedOptStr, Bool.and_eq_true, beq_iff_eq, Bool.not_eq_true',
      beq_eq_false_iff_ne, ne_eq] at h1 h2
    have hl : normalize_str (some lv.1) = some lv.1 := by simp [normalize_str, h1.1, h1.2]
    have hv : normalize_str (some lv.2) = some lv.2 := by simp [normalize_str, h2.1, h2.2]
    simp only [serialize_nutrition_entries, normalize_nutrition, List.filterMap_cons] at ih ⊢
    simp [h1.2, h2.2, hl, hv, ih hrest]

/-- Hero-image filtering keeps every URL that does not strip to empty. -/
theorem hero_images_filter_id (urls : List String)
    (h : urls.all (fun url => !(pyStrip url == "")) = true) :
    urls.filter (fun url => (normalize_str (some url)).isSome) = urls := by
  rw [List.filter_eq_self]
  intro u hu
  rw [List.all_eq_true] at h
  have := h u hu
  simp only [Bool.not_eq_true', beq_eq_false_iff_ne, ne_eq] at this
  simp [normalize_str, this]

/-- C7 (amended): for every record in the scrapers' normal form — string
fields absent or stripped-non-empty, hero URLs not stripping to empty,
nutrition pairs with stripped non-empty labels and values — serializing to
the report format and deserializing back is the identity: every field is
preserved and none is dropped. -/
theorem C7_report_round_trip (product : ProductRecord)
    (h : wellFormedRecord product = true) :
    deserialize_product (serialize_product_for_json product) = product := by
  obtain ⟨ln, li, pl, dn, hi, nu, ing, de, fs, oc, bc, er⟩ := product
  simp only [wellFormedRecord, Bool.and_eq_true] at h
  obtain ⟨⟨⟨⟨⟨⟨⟨⟨⟨⟨⟨hln, hli⟩, hpl⟩, hdn⟩, hhi⟩, hnu⟩, hing⟩, hde⟩, hfs⟩, hoc⟩, hbc⟩, her⟩ := h
  simp only [serialize_product_for_json, deserialize_product]
  simp [normalize_str_id _ hln, normalize_str_id _ hli, normalize_str_id _ hpl,
    normalize_str_id _ hdn, hero_images_filter_id _ hhi, nutrition_round_trip _ hnu,
    normalize_str_id _ hing, normalize_str_id _ hde, normalize_str_id _ hfs,
    normalize_str_id _ hoc, normalize_str_id _ hbc, normalize_str_id _ her]

/-- A fully populated record in normal form. -/
def richProduct : ProductRecord :=
  { listing_name := some "Amul Butter 100g", listing_image := some "http://img.example/1.png",
    product_link := some "http://shop.example/p/1",
    detail :=
      { detail_name := some "Amul Butter", hero_images := ["http://img.example/2.png"],
        nutrition := [("Energy", "717 kcal"), ("Fat", "81 g")],
        ingredients := some "Milk fat, salt", description := some "Pasteurised butter",
        fssai_license := some "10013011000155", ocr_text := some "AMUL BUTTER",
        barcode := some "8901262010016", error := none } }

/-- C7 witness: the round trip is the identity on a fully populated
normal-form record. -/
theorem C7_report_round_trip_witness :
    wellFormedRecord richProduct = true ∧
      deserialize_product (serialize_product_for_json richProduct) = richProduct :=
  ⟨by decide, C7_report_round_trip richProduct (by decide)⟩

/-- A record whose listing name carries surrounding whitespace. -/
def paddedProduct : ProductRecord :=
  { listing_name := some " Foo ", listing_image := none, product_link := none,
    detail := emptyDetail }

/-- C7 counterexample: the round trip is not the identity on every record —
a listing name with surrounding whitespace comes back stripped (" Foo "
becomes "Foo"), so the claim fails as stated for arbitrary records. -/
theorem C7_padded_name_not_preserved :
    deserialize_product (serialize_product_for_json paddedProduct) ≠ paddedProduct := by
  decide

/-- One optional section of the freeform additional-text blob: absent or
empty contributes nothing, a present value contributes its rendering. -/
def sectionPart (o : Option String) (render : String → String) : List String :=
  match o with
  | some s => if s = "" then [] else [render s]
  | none => []

/-- Spec-side reference for the additional-text blob (amended claim): the
blob contains exactly the sections present in the record, in source order —
the description as-is (with no label prefix), then ingredients, FSSAI
license, OCR text and barcode each prefixed by its label — joined with
single newlines; with no section present there is no blob. -/
def specAdditionalText (product : ProductRecord) : Option String :=
  let d := product.detail
  let parts :=
    sectionPart d.description (fun s => s) ++
      sectionPart d.ingredients (fun s => "Ingredients: " ++ s) ++
      sectionPart d.fssai_license (fun s => "FSSAI License: " ++ s) ++
      sectionPart d.ocr_text (fun s => "OCR Text:\n" ++ s) ++
      sectionPart d.barcode (fun s => "Barcode: " ++ s)
  if parts.isEmpty then none else some (String.intercalate "\n" parts)

/-- The description step of the parts accumulation, as an append. -/
theorem append_section_description (acc : List String) (o : Option String) :
    (match o with
      | some s => if s = "" then acc else acc ++ [s]
      | none => acc) = acc ++ sectionPart o (fun s => s) := by
  cases o with
  | none => simp [sectionPart]
  | some s => by_cases hs : s = "" <;> simp [sectionPart, hs]

/-- The ingredients step of the parts accumulation, as an append. -/
theorem append_section_ingredients (acc : List String) (o : Option String) :
    (match o with
      | some s => if s = "" then acc else acc ++ ["Ingredients: " ++ s]
      | none => acc) = acc ++ sectionPart o (fun s => "Ingredients: " ++ s) := by
  cases o with
  | none => simp [sectionPart]
  | some s => by_cases hs : s = "" <;> simp [sectionPart, hs]

/-- The FSSAI step of the parts accumulation, as an append. -/
theorem append_section_fssai (acc : List String) (o : Option String) :
    (match o with
      | some s => if s = "" then acc else acc ++ ["FSSAI License: " ++ s]
      | none => acc) = acc ++ sectionPart o (fun s => "FSSAI License: " ++ s) := by
  cases o with
  | none => simp [sectionPart]
  | some s => by_cases hs : s = "" <;> simp [sectionPart, hs]

/-- The OCR-text step of the parts accumulation, as an append. -/
theorem append_section_ocr_text (acc : List String) (o : Option String) :
    (match o with
      | some s => if s = "" then acc else acc ++ ["OCR Text:\n" ++ s]
      | none => acc) = acc ++ sectionPart o (fun s => "OCR Text:\n" ++ s) := by
  cases o with
  | none => simp [sectionPart]
  | some s => by_cases hs : s = "" <;> simp [sectionPart, hs]

/-- The barcode step of the parts accumulation, as an append. -/
theorem append_section_barcode (acc : List String) (o : Option String) :
    (match o with
      | some s => if s = "" then acc else acc ++ ["Barcode: " ++ s]
      | none => acc) = acc ++ sectionPart o (fun s => "Barcode: " ++ s) := by
  cases o with
  | none => simp [sectionPart]
  | some s => by_cases hs : s = "" <;> simp [sectionPart, hs]

/-- C8 (amended): for every record for which a payload is built, the
freeform blob contains exactly the sections present among description,
ingredients, FSSAI license, OCR text and barcode, joined by single
newlines; ingredients, FSSAI license, OCR text and barcode are each
prefixed by their label, while the description is included as-is, with no
label prefix. -/
theorem C8_additional_text_sections (product : ProductRecord) (payload : UploadPayload)
    (h : build_upload_payload product = some payload) :
    payload.additionalText = specAdditionalText product := by
  cases hn : nutrition_pairs_to_dict product.detail.nutrition with
  | none =>
    simp only [build_upload_payload, hn] at h
    exact Option.noConfusion h
  | some nutrition =>
    simp only [build_upload_payload, hn, Option.some.injEq] at h
    subst h
    simp only [append_section_description, append_section_ingredients,
      append_section_fssai, append_section_ocr_text, append_section_barcode]
    simp only [specAdditionalText, List.nil_append, List.append_assoc]

/-- A record with one nutrition pair whose only optional section is a
description. -/
def describedProduct : ProductRecord :=
  { listing_name := none, listing_image := none, product_link := none,
    detail :=
      { detail_name := none, hero_images := [], nutrition := [("Energy", "100 kcal")],
        ingredients := none, description := some "Tasty", fssai_license := none,
        ocr_text := none, barcode := none, error := none } }

/-- The payload built for `describedProduct`. -/
def describedPayload : UploadPayload :=
  { listingName := none, detailName := none, listingImage := none, productLink := none,
    listingUrls := [], heroImages := [], nutrition := [("Energy", "100 kcal")],
    barcode := none, ingredients := none, description := some "Tasty", fssaiId := none,
    servingSize := none, servingsPerPackage := none, storageInfo := none,
    expiryInfo := none, additionalText := some "Tasty", use_llm := true }

/-- C8 counterexample: with only a description present, the blob is exactly
the raw description text, "Tasty" — no label prefix is attached to the
description section, contradicting the claim that each included section is
prefixed by its label. -/
theorem C8_description_has_no_label :
    build_upload_payload describedProduct = some describedPayload ∧
      describedPayload.additionalText = some "Tasty" ∧
      describedProduct.detail.description = some "Tasty" := by
  refine ⟨by decide, rfl, rfl⟩

/-- C8 witness: the amended characterization evaluated on a concrete
record. -/
theorem C8_additional_text_sections_witness :
    build_upload_payload describedProduct = some describedPayload ∧
      describedPayload.additionalText = specAdditionalText describedProduct :=
  ⟨by decide,
    C8_additional_text_sections describedProduct describedPayload (by decide)⟩

/-- An RGBA pixel (channel values 0-255). -/
structure RGBA where
  r : Nat
  g : Nat
  b : Nat
  a : Nat
deriving DecidableEq

/-- An RGB border color, as produced by `parse_hex_color`. -/
structure RGB where
  r : Nat
  g : Nat
  b : Nat
deriving DecidableEq

/-- A Pillow bitmap: its dimensions plus a pixel map. Coordinates are `Int`
so that a paste at a negative offset behaves like Pillow's silent cropping;
only in-bounds queries are meaningful. -/
structure PImage where
  width : Nat
  height : Nat
  px : Int → Int → RGBA

/-- One channel of the alpha blend Pillow applies in
`canvas.paste(img, pos, img)` with an RGBA mask (the exact integer rounding
is immaterial to the properties proved here). -/
def blendChannel (s d a : Nat) : Nat := (s * a + d * (255 - a)) / 255

/-- Alpha blending of a source pixel over a destination pixel, the source's
own alpha serving as the mask. -/
def blendPixel (s d : RGBA) : RGBA :=
  { r := blendChannel s.r d.r s.a, g := blendChannel s.g d.g s.a,
    b := blendChannel s.b d.b s.a, a := blendChannel s.a d.a s.a }

/-- `canvas.paste(img, (x0, y0), img)`: blend `img` over the rectangle of
`canvas` with top-left corner `(x0, y0)`; pixels outside that rectangle are
untouched. -/
def paste (canvas img : PImage) (x0 y0 : Int) : PImage :=
  { canvas with px := fun x y =>
      if x0 ≤ x ∧ x < x0 + img.width ∧ y0 ≤ y ∧ y < y0 + img.height then
        blendPixel (img.px (x - x0) (y - y0)) (canvas.px x y)
      else canvas.px x y }

/-- `image.convert("RGB")`: drop the alpha channel, keeping the color
channels (modelled by forcing the alpha to 255). -/
def convertRGB (image : PImage) : PImage :=
  { image with px := fun x y =>
      { r := (image.px x y).r, g := (image.px x y).g,
        b := (image.px x y).b, a := 255 } }

/-- Failures of `stack_vertically` and of the CLI wrapper around it. -/
inductive CompositeError where
  | invalidCount (received : Nat)
  | negativeSize
  | negativeBorder
deriving DecidableEq

/-- `stack_vertically` (combine_images.py, lines 46-70). The only input
validation in the source is the image count (`ValueError` unless exactly
four, modelled as `invalidCount`); the border may be any integer. `Image.new`
(and hence this embedding) fails when the computed total height is negative.
The horizontal offset `(max_width - img.width) // 2` is computed in `Nat`:
`max_width` is at least every width, so the Python floor division agrees. -/
def stack_vertically (imgs : List PImage) (border_px : Int) (border_color : RGB) :
    Except CompositeError PImage :=
  if imgs.length ≠ 4 then Except.error (CompositeError.invalidCount imgs.length)
  else
    let max_width := (imgs.map PImage.width).foldl max 0
    let total_height : Int :=
      ((imgs.map PImage.height).sum : Nat) + border_px * ((imgs.length : Int) - 1)
    if total_height < 0 then Except.error CompositeError.negativeSize
    else
      let canvas : PImage :=
        { width := max_width, height := total_height.toNat,
          px := fun _ _ => { r := border_color.r, g := border_color.g,
                             b := border_color.b, a := 255 } }
      let final := (imgs.foldl
        (fun (st : PImage × Int × Nat) img =>
          let x_offset : Int := ((max_width - img.width : Nat) : Int) / 2
          let canvas' := paste st.1 img x_offset st.2.1
          let y' := st.2.1 + (img.height : Int) +
            (if st.2.2 < imgs.length - 1 then border_px else 0)
          (canvas', y', st.2.2 + 1))
        (canvas, 0, 0)).1
      Except.ok (convertRGB final)

/-- The `--border` validation in `main` (combine_images.py, lines 114-115):
the CLI rejects a negative border before ever calling `stack_vertically`. -/
def cli_border_check (border : Int) : Except CompositeError Unit :=
  if border < 0 then Except.error CompositeError.negativeBorder else Except.ok ()

/-- Membership of pixel `(x, y)` in the `w × h` rectangle with top-left
corner `(x0, y0)`. -/
def inRect (x0 y0 : Int) (w h : Nat) (x y : Int) : Prop :=
  x0 ≤ x ∧ x < x0 + w ∧ y0 ≤ y ∧ y < y0 + h

/-- The pixel an in-rectangle point of the composite shows after the final
RGB conversion: image pixel blended over the border-colored canvas. -/
def pastedPixel (img : PImage) (xo yo : Int) (c : RGB) (x y : Int) : RGBA :=
  let blended := blendPixel (img.px (x - xo) (y - yo))
    { r := c.r, g := c.g, b := c.b, a := 255 }
  { r := blended.r, g := blended.g, b := blended.b, a := 255 }

/-- The compositor contract of spec 4.2 for four bitmaps and a border
`b ≥ 0`: the call succeeds; the width is the maximum input width and the
height the sum of the input heights plus three borders; every pixel outside
all four pasted rectangles — the border strips between images and the side
gaps beside narrower ones — carries the border color; and each image's
rectangle is horizontally centered (left edge `(W - width) / 2`) at its
vertical slot (heights plus one border accumulated), showing the image
blended over the border-colored canvas. -/
def stackSpec (i0 i1 i2 i3 : PImage) (b : Int) (c : RGB) : Prop :=
  let W := max (max (max i0.width i1.width) i2.width) i3.width
  let x0 : Int := ((W - i0.width : Nat) : Int) / 2
  let x1 : Int := ((W - i1.width : Nat) : Int) / 2
  let x2 : Int := ((W - i2.width : Nat) : Int) / 2
  let x3 : Int := ((W - i3.width : Nat) : Int) / 2
  let y1 : Int := (i0.height : Int) + b
  let y2 : Int := y1 + (i1.height : Int) + b
  let y3 : Int := y2 + (i2.height : Int) + b
  ∃ out, stack_vertically [i0, i1, i2, i3] b c = Except.ok out ∧
    out.width = W ∧
    out.height = i0.height + i1.height + i2.height + i3.height + 3 * b.toNat ∧
    (∀ x y : Int,
      ¬inRect x0 0 i0.width i0.height x y → ¬inRect x1 y1 i1.width i1.height x y →
      ¬inRect x2 y2 i2.width i2.height x y → ¬inRect x3 y3 i3.width i3.height x y →
      out.px x y = { r := c.r, g := c.g, b := c.b, a := 255 }) ∧
    (∀ x y : Int, inRect x0 0 i0.width i0.height x y →
      out.px x y = pastedPixel i0 x0 0 c x y) ∧
    (∀ x y : Int, inRect x1 y1 i1.width i1.height x y →
      out.px x y = pastedPixel i1 x1 y1 c x y) ∧
    (∀ x y : Int, inRect x2 y2 i2.width i2.height x y →
      out.px x y = pastedPixel i2 x2 y2 c x y) ∧
    (∀ x y : Int, inRect x3 y3 i3.width i3.height x y →
      out.px x y = pastedPixel i3 x3 y3 c x y)

/-- A paste leaves pixels outside its rectangle untouched. -/
theorem paste_px_out (C I : PImage) (x0 y0 x y : Int)
    (h : ¬(x0 ≤ x ∧ x < x0 + I.width ∧ y0 ≤ y ∧ y < y0 + I.height)) :
    (paste C I x0 y0).px x y = C.px x y := by
  simp only [paste]
  rw [if_neg h]

/-- A paste blends the image over the canvas inside its rectangle. -/
theorem paste_px_in (C I : PImage) (x0 y0 x y : Int)
    (h : x0 ≤ x ∧ x < x0 + I.width ∧ y0 ≤ y ∧ y < y0 + I.height) :
    (paste C I x0 y0).px x y = blendPixel (I.px (x - x0) (y - y0)) (C.px x y) := by
  simp only [paste]
  rw [if_pos h]

/-- Pasting preserves the canvas dimensions. -/
theorem paste_width (C I : PImage) (x0 y0 : Int) : (paste C I x0 y0).width = C.width := rfl

/-- Pasting preserves the canvas dimensions. -/
theorem paste_height (C I : PImage) (x0 y0 : Int) : (paste C I x0 y0).height = C.height := rfl

/-- RGB conversion acts per pixel. -/
theorem convertRGB_px (I : PImage) (x y : Int) :
    (convertRGB I).px x y =
      { r := (I.px x y).r, g := (I.px x y).g, b := (I.px x y).b, a := 255 } := rfl

/-- RGB conversion preserves the dimensions. -/
theorem convertRGB_width (I : PImage) : (convertRGB I).width = I.width := rfl

/-- RGB conversion preserves the dimensions. -/
theorem convertRGB_height (I : PImage) : (convertRGB I).height = I.height := rfl

set_option maxHeartbeats 1000000 in
/-- C4: for every four bitmaps and every border `b ≥ 0`, the composite
satisfies the full compositor contract `stackSpec`: height is the sum of
the four heights plus `3 * b`, width is the maximum input width, narrower
images are horizontally centered, and uncovered pixels carry the border
color. -/
theorem C4_composite_contract (i0 i1 i2 i3 : PImage) (b : Int) (c : RGB)
    (hb : 0 ≤ b) : stackSpec i0 i1 i2 i3 b c := by
  simp only [stackSpec]
  cases hE : stack_vertically [i0, i1, i2, i3] b c with
  | error e =>
    exfalso
    simp only [stack_vertically] at hE
    split at hE
    · rename_i hlen
      simp at hlen
    · split at hE
      · rename_i hth
        simp only [List.map_cons, List.map_nil, List.sum_cons, List.sum_nil,
          List.length_cons, List.length_nil] at hth
        omega
      · exact Except.noConfusion hE
  | ok final =>
    have hE' := hE
    simp only [stack_vertically] at hE'
    split at hE'
    · rename_i hlen
      simp at hlen
    · split at hE'
      · rename_i hth
        simp only [List.map_cons, List.map_nil, List.sum_cons, List.sum_nil,
          List.length_cons, List.length_nil] at hth
        omega
      · injection hE' with h
        subst h
        refine ⟨_, rfl, ?_, ?_, ?_, ?_, ?_, ?_, ?_⟩
        · simp [List.foldl_cons, List.foldl_nil, paste_width, convertRGB_width]
        · simp [List.foldl_cons, List.foldl_nil, paste_height, convertRGB_height]
          omega
        · intro x y hr0 hr1 hr2 hr3
          simp only [inRect] at hr0 hr1 hr2 hr3
          simp only [List.foldl_cons, List.foldl_nil, List.length_cons,
            List.length_nil, List.map_cons, List.map_nil, Nat.zero_max, zero_add,
            convertRGB_px]
          rw [paste_px_out, paste_px_out, paste_px_out, paste_px_out]
          all_goals omega
        · intro x y hr0
          simp only [inRect] at hr0
          simp only [List.foldl_cons, List.foldl_nil, List.length_cons,
            List.length_nil, List.map_cons, List.map_nil, Nat.zero_max, zero_add,
            convertRGB_px]
          rw [paste_px_out _ i3, paste_px_out _ i2, paste_px_out _ i1, paste_px_in _ i0]
          all_goals first | omega | (simp only [pastedPixel]; try rfl)
        · intro x y hr1
          simp only [inRect] at hr1
          simp only [List.foldl_cons, List.foldl_nil, List.length_cons,
            List.length_nil, List.map_cons, List.map_nil, Nat.zero_max, zero_add,
            convertRGB_px]
          rw [paste_px_out _ i3, paste_px_out _ i2, paste_px_in _ i1, paste_px_out _ i0]
          all_goals first | omega | (simp only [pastedPixel]; try rfl)
        · intro x y hr2
          simp only [inRect] at hr2
          simp only [List.foldl_cons, List.foldl_nil, List.length_cons,
            List.length_nil, List.map_cons, List.map_nil, Nat.zero_max, zero_add,
            convertRGB_px]
          rw [paste_px_out _ i3, paste_px_in _ i2, paste_px_out _ i1, paste_px_out _ i0]
          all_goals first | omega | (simp only [pastedPixel]; try rfl)
        · intro x y hr3
          simp only [inRect] at hr3
          simp only [List.foldl_cons, List.foldl_nil, List.length_cons,
            List.length_nil, List.map_cons, List.map_nil, Nat.zero_max, zero_add,
            convertRGB_px]
          rw [paste_px_in _ i3, paste_px_out _ i2, paste_px_out _ i1, paste_px_out _ i0]
          all_goals first | omega | (simp only [pastedPixel]; try rfl)

/-- A small 8×5 test bitmap. -/
def tileSmall : PImage :=
  { width := 8, height := 5, px := fun _ _ => { r := 10, g := 20, b := 30, a := 255 } }

/-- A wider 20×7 test bitmap. -/
def tileWide : PImage :=
  { width := 20, height := 7, px := fun _ _ => { r := 40, g := 50, b := 60, a := 128 } }

/-- C4 witness: the compositor contract holds at four concrete bitmaps of
mixed widths with the default border of 16 pixels. -/
theorem C4_composite_contract_witness :
    (0 : Int) ≤ 16 ∧ stackSpec tileSmall tileWide tileSmall tileSmall 16
      { r := 17, g := 17, b := 17 } :=
  ⟨by decide, C4_composite_contract tileSmall tileWide tileSmall tileSmall 16
    { r := 17, g := 17, b := 17 } (by decide)⟩

/-- C5 (amended): `stack_vertically` fails with an invalid-count error for
any input count other than exactly four; a negative border thickness is
not rejected by the compositor itself — it is rejected only by the CLI
entry point `main`, before `stack_vertically` is called. -/
theorem C5_count_validated_border_cli_only :
    (∀ (imgs : List PImage) (b : Int) (c : RGB), imgs.length ≠ 4 →
      stack_vertically imgs b c =
        Except.error (CompositeError.invalidCount imgs.length)) ∧
      (∀ b : Int, b < 0 →
        cli_border_check b = Except.error CompositeError.negativeBorder) := by
  constructor
  · intro imgs b c h
    simp [stack_vertically, h]
  · intro b h
    simp [cli_border_check, h]

/-- C5 witness: three or five images are rejected with the invalid-count
error, and the CLI border validation rejects a border of -1. -/
theorem C5_count_validated_border_cli_only_witness :
    stack_vertically [tileSmall, tileSmall, tileSmall] 0 { r := 17, g := 17, b := 17 } =
        Except.error (CompositeError.invalidCount 3) ∧
      stack_vertically [tileSmall, tileSmall, tileSmall, tileSmall, tileSmall] 0
          { r := 17, g := 17, b := 17 } =
        Except.error (CompositeError.invalidCount 5) ∧
      cli_border_check (-1) = Except.error CompositeError.negativeBorder :=
  ⟨(C5_count_validated_border_cli_only).1 [tileSmall, tileSmall, tileSmall] 0
      { r := 17, g := 17, b := 17 } (by decide),
    (C5_count_validated_border_cli_only).1
      [tileSmall, tileSmall, tileSmall, tileSmall, tileSmall] 0
      { r := 17, g := 17, b := 17 } (by decide),
    (C5_count_validated_border_cli_only).2 (-1) (by decide)⟩

/-- C5 counterexample: `stack_vertically` itself accepts a negative border —
with four 8×5 bitmaps and border -1 it succeeds and returns a composite of
height 4·5 - 3 = 17, so the compositor does not fail with `InvalidInputError`
on a negative border thickness. -/
theorem C5_negative_border_accepted :
    ((stack_vertically [tileSmall, tileSmall, tileSmall, tileSmall] (-1)
        { r := 17, g := 17, b := 17 }).toOption.map PImage.height) = some 17 := by
  rfl

end Blinkit
